import Mathlib

/-!
Verification of the weather-station server (`server.py` and its variants).

The development shallowly embeds the pure computational core of the
repository: the fixed-width station-directory loader, the haversine distance,
the station search endpoint, the daily-record processor and the
`get_station_data` endpoint of `src/server.py`, together with the
spec-modelled seasonal aggregator (whose implementation is exercised only by
the test files in the repository).

Modelling conventions:
* Python strings are `List Char`; Python slicing `s[a:b]` is `pySlice`.
* Python numbers are idealized: `float` values are exact rationals `ℚ`
  (decimal text parses exactly), real-valued trigonometry is over `ℝ`.
  IEEE-754 rounding is outside the model.
* Python `int(...)` / `float(...)` on strings are `pyParseInt` / `pyParseFloat`
  returning `none` where Python raises `ValueError` (exotic forms such as
  underscores in numeric literals, `inf` and `nan` are not modelled; they do
  not occur in the fixed-width data handled here).
* A raised-and-caught exception is an `Option`/outcome value; an uncaught
  exception in a handler is the distinguished `crash` outcome.
-/

/-! ## Python string primitives -/

/-- Whitespace characters recognized by Python's `str.strip` / `str.split`. -/
def pyIsSpace (c : Char) : Bool :=
  c = ' ' ∨ c = '\t' ∨ c = '\n' ∨ c = '\r' ∨ c = '\x0b' ∨ c = '\x0c'

/-- Python `str.strip()`: remove leading and trailing whitespace. -/
def stripChars (s : List Char) : List Char :=
  ((s.dropWhile pyIsSpace).reverse.dropWhile pyIsSpace).reverse

/-- Python slicing `s[a:b]` for `0 ≤ a ≤ b` (out-of-range indices clamp). -/
def pySlice (s : List Char) (a b : ℕ) : List Char :=
  (s.take b).drop a

/-- Numeric value of a list of decimal digit characters. -/
def digitsVal (s : List Char) : ℕ :=
  s.foldl (fun acc c => 10 * acc + (c.toNat - '0'.toNat)) 0

/-- Python `int(s)` on a string: optional surrounding whitespace, optional
sign, then a nonempty digit run.  `none` models `ValueError`. -/
def pyParseInt (s : List Char) : Option ℤ :=
  let t := stripChars s
  let signAndRest : ℤ × List Char :=
    match t with
    | '+' :: r => (1, r)
    | '-' :: r => (-1, r)
    | _ => (1, t)
  if signAndRest.2 ≠ [] ∧ signAndRest.2.all Char.isDigit then
    some (signAndRest.1 * (digitsVal signAndRest.2 : ℤ))
  else none

/-- Python `float(s)` on a string, for the decimal forms
`[sign] (digits [. digits] | . digits) [(e|E) [sign] digits]`.
`none` models `ValueError`. -/
def pyParseFloat (s : List Char) : Option ℚ :=
  let t := stripChars s
  let signAndRest : ℚ × List Char :=
    match t with
    | '+' :: r => (1, r)
    | '-' :: r => (-1, r)
    | _ => (1, t)
  let t1 := signAndRest.2
  let ip := t1.takeWhile Char.isDigit
  let r1 := t1.dropWhile Char.isDigit
  let fracAndRest : List Char × List Char :=
    match r1 with
    | '.' :: r => (r.takeWhile Char.isDigit, r.dropWhile Char.isDigit)
    | _ => ([], r1)
  let fp := fracAndRest.1
  let r2 := fracAndRest.2
  if ip = [] ∧ fp = [] then none
  else
    let mantissa : ℚ := (digitsVal ip : ℚ) + (digitsVal fp : ℚ) / ((10 : ℚ) ^ fp.length)
    match r2 with
    | [] => some (signAndRest.1 * mantissa)
    | 'e' :: r =>
      let esignAndRest : ℤ × List Char :=
        match r with
        | '+' :: q => (1, q)
        | '-' :: q => (-1, q)
        | _ => (1, r)
      if esignAndRest.2 ≠ [] ∧ esignAndRest.2.all Char.isDigit then
        some (signAndRest.1 * mantissa *
          (10 : ℚ) ^ (esignAndRest.1 * (digitsVal esignAndRest.2 : ℤ)))
      else none
    | 'E' :: r =>
      let esignAndRest : ℤ × List Char :=
        match r with
        | '+' :: q => (1, q)
        | '-' :: q => (-1, q)
        | _ => (1, r)
      if esignAndRest.2 ≠ [] ∧ esignAndRest.2.all Char.isDigit then
        some (signAndRest.1 * mantissa *
          (10 : ℚ) ^ (esignAndRest.1 * (digitsVal esignAndRest.2 : ℤ)))
      else none
    | _ => none

/-- Python slice truncation `l[:m]` for an arbitrary integer `m`
(negative `m` counts from the end; the result is always a prefix). -/
def pySliceTo (m : ℤ) (l : List α) : List α :=
  if 0 ≤ m then l.take m.toNat else l.take (l.length - (-m).toNat)

/-- Python `f"{n:02d}"` for `0 ≤ n ≤ 99` (the day-of-month use-site). -/
def pad2 (n : ℕ) : List Char :=
  [Nat.digitChar (n / 10 % 10), Nat.digitChar (n % 10)]

/-! ## Station directory (`parse_stations`) -/

/-- A station record, as the dict built by `parse_stations`.  The optional
`distance` field models the dynamically added `station["distance"]` key
(`none` = key absent). -/
structure PyStation where
  id : List Char
  lat : ℚ
  lon : ℚ
  name : List Char
  distance : Option ℚ := none
deriving DecidableEq, Repr

/-- Name extraction of `src/server.py`:
`" ".join(line[36:].strip().rsplit(maxsplit=2)[:-2])`, i.e. trim `line[36:]`
and remove the final two whitespace-separated tokens (state and country);
the remainder keeps its internal whitespace.  When fewer than three tokens
exist the result is the empty string. -/
def serverNameOf (line : List Char) : List Char :=
  let t := stripChars (line.drop 36)
  (((((t.reverse.dropWhile (fun c => ¬ pyIsSpace c)).dropWhile
      pyIsSpace).dropWhile (fun c => ¬ pyIsSpace c)).dropWhile pyIsSpace)).reverse

/-- One line of the directory as parsed by `src/server.py`'s
`parse_stations` (`none` models the `ValueError` of a failed `float`,
which the loop skips). -/
def parseStationLineServer (line : List Char) : Option PyStation :=
  match pyParseFloat (stripChars (pySlice line 12 20)),
        pyParseFloat (stripChars (pySlice line 21 30)) with
  | some la, some lo =>
    some { id := stripChars (pySlice line 0 11), lat := la, lon := lo,
           name := serverNameOf line, distance := none }
  | _, _ => none

/-- One line of the directory as parsed by `src/test.py`'s `parse_stations`
(name taken from columns `[41,71)`, trimmed). -/
def parseStationLineTest (line : List Char) : Option PyStation :=
  match pyParseFloat (stripChars (pySlice line 12 20)),
        pyParseFloat (stripChars (pySlice line 21 30)) with
  | some la, some lo =>
    some { id := stripChars (pySlice line 0 11), lat := la, lon := lo,
           name := stripChars (pySlice line 41 71), distance := none }
  | _, _ => none

/-- `parse_stations` of `src/server.py`: the `for line in file` loop with
`try ... except ValueError: continue`. -/
def parse_stationsServer (lines : List (List Char)) : List PyStation :=
  lines.foldl (fun acc line =>
    match parseStationLineServer line with
    | some s => acc ++ [s]
    | none => acc) []

/-- `parse_stations` of `src/test.py` (same loop, name rule `[41,71)`). -/
def parse_stationsTest (lines : List (List Char)) : List PyStation :=
  lines.foldl (fun acc line =>
    match parseStationLineTest line with
    | some s => acc ++ [s]
    | none => acc) []

/-! ## Haversine distance (`haversine`) -/

/-- Python `math.radians`. -/
noncomputable def radians (x : ℝ) : ℝ := x * (Real.pi / 180)

/-- Python `math.atan2 y x` over the reals. -/
noncomputable def pyAtan2 (y x : ℝ) : ℝ :=
  if 0 < x then Real.arctan (y / x)
  else if x < 0 then
    (if 0 ≤ y then Real.arctan (y / x) + Real.pi else Real.arctan (y / x) - Real.pi)
  else
    (if 0 < y then Real.pi / 2 else if y < 0 then -(Real.pi / 2) else 0)

/-- `haversine(lat1, lon1, lat2, lon2)` of `src/server.py`: great-circle
distance in kilometres, Earth radius 6371 km. -/
noncomputable def haversine (lat1 lon1 lat2 lon2 : ℝ) : ℝ :=
  let dlat := radians (lat2 - lat1)
  let dlon := radians (lon2 - lon1)
  let a := Real.sin (dlat / 2) ^ 2 +
    Real.cos (radians lat1) * Real.cos (radians lat2) * Real.sin (dlon / 2) ^ 2
  let c := 2 * pyAtan2 (Real.sqrt a) (Real.sqrt (1 - a))
  6371 * c

/-! ## Rounding (`round(x, 2)`) -/

/-- Round to the nearest integer, ties to even (Python `round` on the
idealized real value). -/
noncomputable def roundHalfEven (x : ℝ) : ℤ :=
  if Int.fract x < 1 / 2 then ⌊x⌋
  else if 1 / 2 < Int.fract x then ⌊x⌋ + 1
  else if Even ⌊x⌋ then ⌊x⌋ else ⌊x⌋ + 1

/-- Python `round(x, 2)` on the idealized real value; the result is an exact
multiple of `1/100`, kept as a rational. -/
noncomputable def pyRound2 (x : ℝ) : ℚ :=
  (roundHalfEven (100 * x) : ℚ) / 100

/-! ## Station search (`search_stations`) -/

/-- Sort key used by `results.sort(key=lambda x: x["distance"])`: the stored
(rounded) distance.  All sorted elements carry the field; `getD 0` only
totalizes the access. -/
def keyD (s : PyStation) : ℚ := s.distance.getD 0

/-- `station_copy = station.copy(); station_copy["distance"] = round(distance, 2)`:
a fresh copy of the station dict carrying the rounded distance. -/
noncomputable def withDist (s : PyStation) (d : ℝ) : PyStation :=
  { s with distance := some (pyRound2 d) }

/-- The distance computed by `search_stations` for one station:
`haversine(lat, lon, station["lat"], station["lon"])`. -/
noncomputable def stationDist (lat lon : ℚ) (s : PyStation) : ℝ :=
  haversine (lat : ℝ) (lon : ℝ) (s.lat : ℝ) (s.lon : ℝ)

/-- The filtering loop of `search_stations`: walk the directory in order,
keep stations within `radius`, appending a copy (`station.copy()`) that
carries the rounded distance. -/
noncomputable def searchFiltered (sts : List PyStation) (lat lon radius : ℚ) :
    List PyStation :=
  sts.foldl (fun acc s =>
    let d := stationDist lat lon s
    if d ≤ (radius : ℝ) then acc ++ [withDist s d]
    else acc) []

/-- `search_stations` search core: filter, stable sort by stored distance
(Python `list.sort` is stable; a stable sort is unique, modelled by
insertion sort), then `results[:max_results]`. -/
noncomputable def search_stationsFn (sts : List PyStation) (lat lon radius : ℚ)
    (maxResults : ℤ) : List PyStation :=
  pySliceTo maxResults
    (List.insertionSort (fun a b => keyD a ≤ keyD b) (searchFiltered sts lat lon radius))

/-- Query-string arguments of `/search_stations` (absent key = `none`). -/
structure SearchQuery where
  lat : Option (List Char)
  lon : Option (List Char)
  radius : Option (List Char)
  maxr : Option (List Char)

/-- Outcome of the `/search_stations` endpoint. -/
inductive SearchOutcome where
  | invalidParameter
  | ok (results : List PyStation)

/-- `float(request.args.get(k))`: a missing key raises `TypeError`
(`float(None)`), caught together with `ValueError`. -/
def floatArg (o : Option (List Char)) : Option ℚ := o.bind pyParseFloat

/-- `float(request.args.get(k, d))` with a numeric default `d`. -/
def floatArgD (o : Option (List Char)) (d : ℚ) : Option ℚ :=
  match o with
  | none => some d
  | some s => pyParseFloat s

/-- `int(request.args.get(k, d))` with a numeric default `d`. -/
def intArgD (o : Option (List Char)) (d : ℤ) : Option ℤ :=
  match o with
  | none => some d
  | some s => pyParseInt s

/-- The `/search_stations` handler of `src/server.py`: lazily (re)load the
global station list when it is empty, parse the query parameters
(`400 Ungültige Parameter` on failure), then run the search core.  The first
component is the global `stations` list after the call. -/
noncomputable def search_stationsHandler (sts : List PyStation)
    (stationsFile : List (List Char)) (q : SearchQuery) :
    List PyStation × SearchOutcome :=
  let sts' := if sts.isEmpty then parse_stationsServer stationsFile else sts
  match floatArg q.lat, floatArg q.lon, floatArgD q.radius 50, intArgD q.maxr 10 with
  | some la, some lo, some ra, some mx =>
    (sts', SearchOutcome.ok (search_stationsFn sts' la lo ra mx))
  | _, _, _, _ => (sts', SearchOutcome.invalidParameter)

/-! ## Daily record processing (`process_weather_data_for_station`) -/

/-- One element of the `temperatures` list built by
`process_weather_data_for_station`. -/
structure TempEntry where
  date : List Char
  etype : List Char
  temperature : ℚ
deriving DecidableEq, Repr

/-- The character list `"TMAX"`. -/
def tmaxChars : List Char := ['T', 'M', 'A', 'X']

/-- The character list `"TMIN"`. -/
def tminChars : List Char := ['T', 'M', 'I', 'N']

/-- The day loop `for day in range(1, 32)` of
`process_weather_data_for_station`, starting at `day` with `rem` iterations
left.  `if pos + 5 > len(line): break` ends the loop; a blank field, a field
failing `int(...)`, or the sentinel `-9999` are skipped (`continue`);
otherwise the value is scaled by `1/10` and emitted with date
`f"{year}{month}{day:02d}"`. -/
def processDays (line year month elem : List Char) : ℕ → ℕ → List TempEntry
  | 0, _ => []
  | rem + 1, day =>
    let pos := 21 + (day - 1) * 8
    if line.length < pos + 5 then []
    else
      let valueStr := stripChars (pySlice line pos (pos + 5))
      (if valueStr = [] then []
       else match pyParseInt valueStr with
        | none => []
        | some v =>
          if v = -9999 then []
          else [{ date := year ++ month ++ pad2 day, etype := elem,
                  temperature := (v : ℚ) / 10 }]) ++
      processDays line year month elem rem (day + 1)

/-- Processing of one line of a `.dly` record source: parse the fixed
columns, skip elements other than `TMAX`/`TMIN`, then run the day loop. -/
def processLine (line : List Char) : List TempEntry :=
  let year := stripChars (pySlice line 11 15)
  let month := stripChars (pySlice line 15 17)
  let elem := stripChars (pySlice line 17 21)
  if elem = tmaxChars ∨ elem = tminChars then
    processDays line year month elem 31 1
  else []

/-- Message `f"No weather data found for station {station_id}."`. -/
def noDataFileMsg (stationId : List Char) : List Char :=
  ("No weather data found for station ".toList) ++ stationId ++ ['.']

/-- Message `f"No valid temperature data found for station {station_id}."`. -/
def noValidMsg (stationId : List Char) : List Char :=
  ("No valid temperature data found for station ".toList) ++ stationId ++ ['.']

/-- `process_weather_data_for_station` of `src/server.py` with the record
source passed explicitly: `none` models a missing (or undownloadable) data
file.  Returns `(temperatures_list, error_message)` exactly as the Python
function does: data with no error, or no data with an error message. -/
def process_weather_data_for_station (stationId : List Char)
    (fileLines : Option (List (List Char))) :
    Option (List TempEntry) × Option (List Char) :=
  match fileLines with
  | none => (none, some (noDataFileMsg stationId))
  | some lines =>
    let temps := lines.foldl (fun acc line => acc ++ processLine line) []
    if temps.isEmpty then (none, some (noValidMsg stationId))
    else (some temps, none)

/-! ## `get_station_data` endpoint of `src/server.py` -/

/-- Query-string arguments of `/get_station_data`. -/
structure GetQuery where
  station_id : Option (List Char)
  start_year : Option (List Char)
  end_year : Option (List Char)

/-- Successful response body of `/get_station_data`. -/
structure GetResp where
  id : List Char
  name : List Char
  lat : ℚ
  lon : ℚ
  temperatures : List TempEntry
deriving DecidableEq, Repr

/-- Outcome of the `/get_station_data` endpoint.  `crash` models an uncaught
exception (HTTP 500): the year filter applies `int(temp["date"][:4])`
without a surrounding `try`. -/
inductive GetOutcome where
  | errMissingId
  | errInvalidYears
  | errStationNotFound
  | errProcess (msg : List Char)
  | errNoData (startYear endYear : ℤ)
  | crash
  | ok (resp : GetResp)
deriving DecidableEq, Repr

/-- Whether the outcome is the in-range-data-missing 404
(`"Keine Temperaturdaten für den Zeitraum ... gefunden."`). -/
def GetOutcome.isNoData : GetOutcome → Bool
  | errNoData _ _ => true
  | _ => false

/-- Whether the outcome is a success. -/
def GetOutcome.isOk : GetOutcome → Bool
  | ok _ => true
  | _ => false

/-- The list comprehension
`[t for t in temperatures if start_year <= int(t["date"][:4]) <= end_year]`:
evaluated element by element; `none` models the uncaught `ValueError` when
some `date[:4]` is not an integer literal. -/
def tryFilterYears (startYear endYear : ℤ) : List TempEntry → Option (List TempEntry)
  | [] => some []
  | t :: ts =>
    match pyParseInt (t.date.take 4) with
    | none => none
    | some y =>
      match tryFilterYears startYear endYear ts with
      | none => none
      | some r => some (if startYear ≤ y ∧ y ≤ endYear then t :: r else r)

/-- The `/get_station_data` handler of `src/server.py`: lazy station reload,
`400` on a missing/empty `station_id` or unparseable years, `404` when the
id is not in the directory, `404` with the processing error when the record
source is missing or holds no valid values, `404` when no observation falls
in `[start_year, end_year]`, and otherwise the station metadata with the
filtered temperature list. -/
def get_station_dataHandler (sts : List PyStation)
    (stationsFile : List (List Char)) (fileLines : Option (List (List Char)))
    (q : GetQuery) : List PyStation × GetOutcome :=
  let sts' := if sts.isEmpty then parse_stationsServer stationsFile else sts
  match q.station_id with
  | none => (sts', GetOutcome.errMissingId)
  | some sid =>
    if sid.isEmpty then (sts', GetOutcome.errMissingId)
    else
      match intArgD q.start_year 2010, intArgD q.end_year 2020 with
      | some y1, some y2 =>
        match sts'.find? (fun s => s.id == sid) with
        | none => (sts', GetOutcome.errStationNotFound)
        | some st =>
          match process_weather_data_for_station sid fileLines with
          | (_, some m) => (sts', GetOutcome.errProcess m)
          | (some temps, none) =>
            match tryFilterYears y1 y2 temps with
            | none => (sts', GetOutcome.crash)
            | some filtered =>
              if filtered.isEmpty then (sts', GetOutcome.errNoData y1 y2)
              else (sts', GetOutcome.ok
                { id := sid, name := st.name, lat := st.lat, lon := st.lon,
                  temperatures := filtered })
          | (none, none) => (sts', GetOutcome.crash)
      | _, _ => (sts', GetOutcome.errInvalidYears)

/-! ## Seasonal aggregator (spec-modelled) -/

/-- Meteorological season key. -/
inductive Season where
  | winter
  | spring
  | summer
  | autumn
deriving DecidableEq, Repr

/-- Temperature element of a daily record line. -/
inductive Elem where
  | TMAX
  | TMIN
deriving DecidableEq, Repr

/-- Modelled from the spec: month→season mapping of §3 (`Dec,Jan,Feb→Winter;
Mar,Apr,May→Spring; Jun,Jul,Aug→Summer; Sep,Oct,Nov→Autumn`).  The seasonal
aggregator itself is not under `src/` (only its tests, e.g.
`test_server.py` and the `server_test_*.py` files, exercise it). -/
def season_of (m : ℤ) : Season :=
  if m = 12 ∨ m = 1 ∨ m = 2 then Season.winter
  else if 3 ≤ m ∧ m ≤ 5 then Season.spring
  else if 6 ≤ m ∧ m ≤ 8 then Season.summer
  else Season.autumn

/-- Modelled from the spec: one parsed `DailyRecordLine` of §3, with up to
31 optional day values (a `none` position is an absent/sentinel day, dropped
before aggregation). -/
structure DailyRecord where
  station_id : List Char
  year : ℤ
  month : ℤ
  element : Elem
  values : List (Option ℚ)

/-- Sum of the present day values of a record. -/
def presentSum (vs : List (Option ℚ)) : ℚ := (vs.filterMap id).sum

/-- Count of the present day values of a record. -/
def presentCount (vs : List (Option ℚ)) : ℕ := (vs.filterMap id).length

/-- Running sums and counts of one season bucket. -/
structure SeasonAcc where
  sumTMAX : ℚ := 0
  countTMAX : ℕ := 0
  sumTMIN : ℚ := 0
  countTMIN : ℕ := 0
deriving DecidableEq, Repr

/-- Add the present values of a record to a season bucket. -/
def SeasonAcc.add (a : SeasonAcc) (e : Elem) (vs : List (Option ℚ)) : SeasonAcc :=
  match e with
  | Elem.TMAX => { a with sumTMAX := a.sumTMAX + presentSum vs,
                          countTMAX := a.countTMAX + presentCount vs }
  | Elem.TMIN => { a with sumTMIN := a.sumTMIN + presentSum vs,
                          countTMIN := a.countTMIN + presentCount vs }

/-- Modelled from the spec: the `YearAccumulator` of §3 — yearly sums and
counts for both elements, plus the four season buckets. -/
structure YearAcc where
  sumTMAX : ℚ := 0
  countTMAX : ℕ := 0
  sumTMIN : ℚ := 0
  countTMIN : ℕ := 0
  seasons : Season → SeasonAcc := fun _ => {}

/-- Add the present values of a record to the yearly sums of an accumulator. -/
def YearAcc.addYearly (a : YearAcc) (e : Elem) (vs : List (Option ℚ)) : YearAcc :=
  match e with
  | Elem.TMAX => { a with sumTMAX := a.sumTMAX + presentSum vs,
                          countTMAX := a.countTMAX + presentCount vs }
  | Elem.TMIN => { a with sumTMIN := a.sumTMIN + presentSum vs,
                          countTMIN := a.countTMIN + presentCount vs }

/-- Pointwise update of the accumulator map (the spec's
`accumulators[year]` defaultdict mutation). -/
def updAt (f : ℤ → YearAcc) (y : ℤ) (g : YearAcc → YearAcc) : ℤ → YearAcc :=
  fun z => if z = y then g (f z) else f z

/-- Modelled from the spec: `accumulate` of §4.5.  A record with calendar
year outside `[startY, endY]` is ignored entirely.  Otherwise the present
values are added to the calendar year's yearly sums; seasonally, the season
year is `year + 1` for December (the Winter season-year shift of §3), and a
Winter record whose season year exceeds `endY` skips seasonal aggregation;
otherwise the values are added to `seasons[season]` of the season year. -/
def accumulate (accs : ℤ → YearAcc) (r : DailyRecord) (startY endY : ℤ) :
    ℤ → YearAcc :=
  if r.year < startY ∨ endY < r.year then accs
  else
    let accs1 := updAt accs r.year (fun ya => ya.addYearly r.element r.values)
    let season := season_of r.month
    let seasonYear := r.year + (if r.month = 12 then 1 else 0)
    if season = Season.winter ∧ endY < seasonYear then accs1
    else
      updAt accs1 seasonYear (fun ya =>
        { ya with seasons := fun s =>
            if s = season then (ya.seasons season).add r.element r.values
            else ya.seasons s })

/-! ## Declarative day contribution (for the record-parser claims) -/

/-- The contribution of day `d` of a record line, stated declaratively per
day: a temperature `v/10` exactly when the full 5-character value field is
on the line, is non-blank after trimming, parses as an integer `v`, and `v`
is not the sentinel `-9999`; otherwise nothing. -/
def dayContribution (line year month elem : List Char) (d : ℕ) : Option TempEntry :=
  let pos := 21 + (d - 1) * 8
  if pos + 5 ≤ line.length then
    let valueStr := stripChars (pySlice line pos (pos + 5))
    if valueStr = [] then none
    else
      match pyParseInt valueStr with
      | none => none
      | some v =>
        if v = -9999 then none
        else some { date := year ++ month ++ pad2 d, etype := elem,
                    temperature := (v : ℚ) / 10 }
  else none

/-! ## Helper lemmas -/

/-- The distance from a point to itself is zero. -/
theorem haversine_self (la lo : ℝ) : haversine la lo la lo = 0 := by
  simp [haversine, radians, pyAtan2, Real.sqrt_one]

/-- The haversine distance is symmetric in its two points. -/
theorem haversine_comm (lat1 lon1 lat2 lon2 : ℝ) :
    haversine lat1 lon1 lat2 lon2 = haversine lat2 lon2 lat1 lon1 := by
  simp only [haversine]
  have h1 : radians (lat1 - lat2) = -(radians (lat2 - lat1)) := by
    simp only [radians]; ring
  have h2 : radians (lon1 - lon2) = -(radians (lon2 - lon1)) := by
    simp only [radians]; ring
  rw [h1, h2]
  simp only [neg_div, Real.sin_neg, neg_sq]
  ring_nf

/-- Rounding half-to-even overshoots by at most one half. -/
theorem roundHalfEven_le (x : ℝ) : (roundHalfEven x : ℝ) ≤ x + 1 / 2 := by
  unfold roundHalfEven
  have hfl := Int.floor_le x
  have hfr : Int.fract x = x - ⌊x⌋ := (Int.self_sub_floor x).symm
  split_ifs with h1 h2 h3 <;> push_cast <;> nlinarith [Int.fract_nonneg x]

/-- `round(x, 2)` of a value at most `radius` is at most `radius + 1/200`. -/
theorem pyRound2_le_of_le {x : ℝ} {radius : ℚ} (h : x ≤ (radius : ℝ)) :
    pyRound2 x ≤ radius + 1 / 200 := by
  rw [← Rat.cast_le (K := ℝ)]
  unfold pyRound2
  push_cast
  have := roundHalfEven_le (100 * x)
  nlinarith

/-- Rounding of zero. -/
theorem roundHalfEven_zero : roundHalfEven 0 = 0 := by
  unfold roundHalfEven
  norm_num

/-- `round(0.0, 2) = 0.0`. -/
theorem pyRound2_zero : pyRound2 0 = 0 := by
  unfold pyRound2
  rw [show (100 : ℝ) * 0 = 0 by ring, roundHalfEven_zero]
  norm_num

/-- An append-accumulating fold is the accumulator followed by a
`filterMap`. -/
theorem foldl_toList_filterMap {α β : Type} (opt : α → Option β) :
    ∀ (l : List α) (init : List β),
      l.foldl (fun acc x => acc ++ (opt x).toList) init = init ++ l.filterMap opt
  | [], init => by simp
  | a :: l, init => by
    cases h : opt a <;>
      simp [List.foldl, h, foldl_toList_filterMap opt l, List.filterMap_cons]

/-- Inserting an element with key `q` puts it in front of the other
key-`q` elements (stability of insertion at equal keys). -/
theorem filter_orderedInsert_key_eq {α : Type} (k : α → ℚ) (q : ℚ) (x : α)
    (hx : k x = q) :
    ∀ l : List α,
      (List.orderedInsert (fun a b => k a ≤ k b) x l).filter (fun a => decide (k a = q))
        = x :: l.filter (fun a => decide (k a = q))
  | [] => by simp [List.orderedInsert, hx]
  | b :: l => by
    rw [List.orderedInsert]
    by_cases hb : k x ≤ k b
    · rw [if_pos hb]
      simp [List.filter_cons, hx]
    · rw [if_neg hb]
      have hbq : ¬ (k b = q) := fun h => hb (le_of_eq (hx.trans h.symm))
      simp [List.filter_cons, hbq, filter_orderedInsert_key_eq k q x hx l]

/-- Inserting an element with a key other than `q` does not disturb the
key-`q` elements. -/
theorem filter_orderedInsert_key_ne {α : Type} (k : α → ℚ) (q : ℚ) (x : α)
    (hx : ¬ (k x = q)) :
    ∀ l : List α,
      (List.orderedInsert (fun a b => k a ≤ k b) x l).filter (fun a => decide (k a = q))
        = l.filter (fun a => decide (k a = q))
  | [] => by simp [List.orderedInsert, hx]
  | b :: l => by
    rw [List.orderedInsert]
    by_cases hb : k x ≤ k b
    · rw [if_pos hb]
      simp [List.filter_cons, hx]
    · rw [if_neg hb]
      simp [List.filter_cons, filter_orderedInsert_key_ne k q x hx l]

/-- Stability of the key-based insertion sort: the elements of each fixed
key keep their relative input order. -/
theorem filter_insertionSort_key {α : Type} (k : α → ℚ) (q : ℚ) :
    ∀ l : List α,
      (List.insertionSort (fun a b => k a ≤ k b) l).filter (fun a => decide (k a = q))
        = l.filter (fun a => decide (k a = q))
  | [] => rfl
  | a :: l => by
    by_cases ha : k a = q
    · rw [List.insertionSort, filter_orderedInsert_key_eq k q a ha,
        filter_insertionSort_key k q l]
      simp [List.filter_cons, ha]
    · rw [List.insertionSort, filter_orderedInsert_key_ne k q a ha,
        filter_insertionSort_key k q l]
      simp [List.filter_cons, ha]

/-- The key-based insertion sort sorts by the key. -/
theorem sorted_insertionSort_key {α : Type} (k : α → ℚ) (l : List α) :
    (List.insertionSort (fun a b => k a ≤ k b) l).Pairwise (fun a b => k a ≤ k b) := by
  haveI : IsTotal α (fun a b => k a ≤ k b) := ⟨fun a b => le_total (k a) (k b)⟩
  haveI : IsTrans α (fun a b => k a ≤ k b) := ⟨fun _ _ _ h1 h2 => le_trans h1 h2⟩
  exact List.sorted_insertionSort _ l

/-- The filtering loop, described declaratively: a `filterMap` over the
directory in source order. -/
theorem searchFiltered_eq (sts : List PyStation) (lat lon radius : ℚ) :
    searchFiltered sts lat lon radius = sts.filterMap (fun s =>
      if stationDist lat lon s ≤ (radius : ℝ)
      then some (withDist s (stationDist lat lon s)) else none) := by
  unfold searchFiltered
  have hbody : (fun (acc : List PyStation) (s : PyStation) =>
      let d := stationDist lat lon s
      if d ≤ (radius : ℝ) then acc ++ [withDist s d] else acc)
      = (fun acc s => acc ++ ((fun s : PyStation =>
          if stationDist lat lon s ≤ (radius : ℝ)
          then some (withDist s (stationDist lat lon s)) else none) s).toList) := by
    funext acc s
    by_cases h : stationDist lat lon s ≤ (radius : ℝ) <;> simp [h]
  rw [hbody, foldl_toList_filterMap]
  simp

/-- Membership in the filtered list: exactly the in-radius stations, as
distance-carrying copies. -/
theorem mem_searchFiltered {sts : List PyStation} {lat lon radius : ℚ} {r : PyStation} :
    r ∈ searchFiltered sts lat lon radius ↔
      ∃ s ∈ sts, stationDist lat lon s ≤ (radius : ℝ) ∧
        r = withDist s (stationDist lat lon s) := by
  rw [searchFiltered_eq, List.mem_filterMap]
  constructor
  · rintro ⟨s, hs, hsome⟩
    by_cases h : stationDist lat lon s ≤ (radius : ℝ)
    · rw [if_pos h] at hsome
      exact ⟨s, hs, h, (Option.some_injective _ hsome).symm⟩
    · rw [if_neg h] at hsome
      exact absurd hsome (by simp)
  · rintro ⟨s, hs, h, rfl⟩
    exact ⟨s, hs, by rw [if_pos h]⟩

/-- `l[:m]` is a sublist of `l`. -/
theorem pySliceTo_sublist {α : Type} (m : ℤ) (l : List α) :
    List.Sublist (pySliceTo m l) l := by
  unfold pySliceTo
  split <;> exact List.take_sublist _ _

/-- For a non-negative bound, `l[:m]` has at most `m` elements. -/
theorem pySliceTo_length_le {α : Type} {m : ℤ} (l : List α) (hm : 0 ≤ m) :
    ((pySliceTo m l).length : ℤ) ≤ m := by
  unfold pySliceTo
  rw [if_pos hm]
  have h1 : (l.take m.toNat).length ≤ m.toNat := by
    rw [List.length_take]; omega
  omega

/-! ## Claim C1 -/

/-- Claim C1 (amended).  For every directory and every query with numeric
`lat`, `lon`, `radius_km` and non-negative integer `max_results`: every
returned result is a per-call copy of a directory station whose (unrounded)
distance to the query point is at most `radius_km` — so its reported rounded
distance is at most `radius_km + 0.005`; the returned sequence is sorted
non-decreasing by the reported distance, stably (for each distance value the
results keep the directory order of the filtered list); and the number of
results is at most `max_results`.  (As stated the claim fails for negative
`max_results`, see the counterexample.) -/
theorem c1_search_within_radius_sorted_bounded (sts : List PyStation)
    (lat lon radius : ℚ) (maxResults : ℤ) (hm : 0 ≤ maxResults) :
    (∀ r ∈ search_stationsFn sts lat lon radius maxResults,
        ∃ s ∈ sts, stationDist lat lon s ≤ (radius : ℝ) ∧
          r = withDist s (stationDist lat lon s) ∧ keyD r ≤ radius + 1 / 200) ∧
    (search_stationsFn sts lat lon radius maxResults).Pairwise
      (fun a b => keyD a ≤ keyD b) ∧
    (∀ q : ℚ,
      List.Sublist
        ((search_stationsFn sts lat lon radius maxResults).filter
          (fun a => decide (keyD a = q)))
        ((searchFiltered sts lat lon radius).filter (fun a => decide (keyD a = q)))) ∧
    ((search_stationsFn sts lat lon radius maxResults).length : ℤ) ≤ maxResults := by
  refine ⟨?_, ?_, ?_, ?_⟩
  · intro r hr
    have hr1 : r ∈ searchFiltered sts lat lon radius := by
      have hmem : r ∈ List.insertionSort (fun a b => keyD a ≤ keyD b)
          (searchFiltered sts lat lon radius) :=
        (pySliceTo_sublist maxResults _).subset hr
      exact (List.mem_insertionSort _).mp hmem
    obtain ⟨s, hs, hd, rfl⟩ := mem_searchFiltered.mp hr1
    refine ⟨s, hs, hd, rfl, ?_⟩
    have hk : keyD (withDist s (stationDist lat lon s))
        = pyRound2 (stationDist lat lon s) := by
      simp [keyD, withDist]
    rw [hk]
    exact pyRound2_le_of_le hd
  · exact (sorted_insertionSort_key keyD _).sublist (pySliceTo_sublist _ _)
  · intro q
    have h := ((pySliceTo_sublist maxResults
      (List.insertionSort (fun a b => keyD a ≤ keyD b)
        (searchFiltered sts lat lon radius)))).filter (fun a => decide (keyD a = q))
    rwa [filter_insertionSort_key] at h
  · exact pySliceTo_length_le _ hm

/-- Witness for C1 at a concrete query. -/
theorem c1_search_within_radius_sorted_bounded_witness :
    (0 : ℤ) ≤ 10 ∧
    ((∀ r ∈ search_stationsFn [] 0 0 50 10,
        ∃ s ∈ ([] : List PyStation), stationDist 0 0 s ≤ ((50 : ℚ) : ℝ) ∧
          r = withDist s (stationDist 0 0 s) ∧ keyD r ≤ 50 + 1 / 200) ∧
      (search_stationsFn [] 0 0 50 10).Pairwise (fun a b => keyD a ≤ keyD b) ∧
      (∀ q : ℚ,
        List.Sublist
          ((search_stationsFn [] 0 0 50 10).filter (fun a => decide (keyD a = q)))
          ((searchFiltered [] 0 0 50).filter (fun a => decide (keyD a = q)))) ∧
      ((search_stationsFn [] 0 0 50 10).length : ℤ) ≤ 10) :=
  ⟨by norm_num, c1_search_within_radius_sorted_bounded [] 0 0 50 10 (by norm_num)⟩

/-- Counterexample to C1 as stated: with the directory
`[S, S]` (both stations at the query point), query `(0, 0)`, radius `0` and
integer `max_results = -1`, the Python slice `results[:-1]` returns one
result, so the returned length is not at most `max_results`. -/
theorem c1_counterexample :
    ¬ (((search_stationsFn
        [{ id := ['S'], lat := 0, lon := 0, name := [], distance := none },
         { id := ['S'], lat := 0, lon := 0, name := [], distance := none }]
        0 0 0 (-1)).length : ℤ) ≤ -1) := by
  have h0 : stationDist 0 0
      ({ id := ['S'], lat := 0, lon := 0, name := [], distance := none } : PyStation)
      = 0 := by
    simp [stationDist, haversine_self]
  have hf : searchFiltered
      [{ id := ['S'], lat := 0, lon := 0, name := [], distance := none },
       { id := ['S'], lat := 0, lon := 0, name := [], distance := none }] 0 0 0 =
      [withDist { id := ['S'], lat := 0, lon := 0, name := [], distance := none } 0,
       withDist { id := ['S'], lat := 0, lon := 0, name := [], distance := none } 0] := by
    rw [searchFiltered_eq]
    simp only [List.filterMap_cons, List.filterMap_nil, h0]
    norm_num
  rw [search_stationsFn, hf]
  have hsort : List.insertionSort (fun a b => keyD a ≤ keyD b)
      [withDist { id := ['S'], lat := 0, lon := 0, name := [], distance := none } 0,
       withDist { id := ['S'], lat := 0, lon := 0, name := [], distance := none } 0] =
      [withDist { id := ['S'], lat := 0, lon := 0, name := [], distance := none } 0,
       withDist { id := ['S'], lat := 0, lon := 0, name := [], distance := none } 0] := by
    simp [List.insertionSort, List.orderedInsert]
  rw [hsort]
  simp [pySliceTo]

/-! ## Claim C8 -/

/-- Claim C8: for all coordinate pairs in valid degree ranges, the haversine
distance is symmetric, and the distance from a point to itself is zero. -/
theorem c8_haversine_symm_and_self_zero (lat1 lon1 lat2 lon2 : ℝ)
    (h1 : -90 ≤ lat1 ∧ lat1 ≤ 90) (h2 : -180 ≤ lon1 ∧ lon1 ≤ 180)
    (h3 : -90 ≤ lat2 ∧ lat2 ≤ 90) (h4 : -180 ≤ lon2 ∧ lon2 ≤ 180) :
    haversine lat1 lon1 lat2 lon2 = haversine lat2 lon2 lat1 lon1 ∧
    haversine lat1 lon1 lat1 lon1 = 0 :=
  ⟨haversine_comm lat1 lon1 lat2 lon2, haversine_self lat1 lon1⟩

/-- Witness for C8 at the New York / Los Angeles fixture coordinates. -/
theorem c8_haversine_symm_and_self_zero_witness :
    haversine 40.7128 (-74.0060) 34.0522 (-118.2437)
      = haversine 34.0522 (-118.2437) 40.7128 (-74.0060) ∧
    haversine 40.7128 (-74.0060) 40.7128 (-74.0060) = 0 :=
  (c8_haversine_symm_and_self_zero 40.7128 (-74.0060) 34.0522 (-118.2437)
    (by norm_num) (by norm_num) (by norm_num) (by norm_num))

/-! ## Claim C5 -/

/-- Claim C5 (amended): the station search fails with `InvalidParameter`
(HTTP 400, no results) exactly when `lat` or `lon` is missing or fails
numeric parsing, `radius` fails numeric parsing, or `max` fails integer
parsing.  A negative `max_results` passes validation (the code only applies
`int(...)`), contrary to the original claim. -/
theorem c5_search_invalid_parameter_iff (sts : List PyStation)
    (sf : List (List Char)) (q : SearchQuery) :
    (search_stationsHandler sts sf q).2 = SearchOutcome.invalidParameter ↔
      (floatArg q.lat = none ∨ floatArg q.lon = none ∨
       floatArgD q.radius 50 = none ∨ intArgD q.maxr 10 = none) := by
  unfold search_stationsHandler
  cases ha : floatArg q.lat <;> cases hb : floatArg q.lon <;>
    cases hc : floatArgD q.radius 50 <;> cases hd : intArgD q.maxr 10 <;>
      simp [ha, hb, hc, hd]

/-- Counterexample to C5 as stated: `max = "-1"` parses to the negative
integer `-1` — not a non-negative integer — yet the search does not fail
with `InvalidParameter`. -/
theorem c5_counterexample :
    pyParseInt ['-', '1'] = some (-1) ∧
    ((-1 : ℤ) < 0) ∧
    (search_stationsHandler [] []
      { lat := some ['0'], lon := some ['0'], radius := some ['1'],
        maxr := some ['-', '1'] }).2 ≠ SearchOutcome.invalidParameter := by
  refine ⟨by decide, by decide, ?_⟩
  obtain ⟨la, hla⟩ := Option.isSome_iff_exists.mp
    (show (floatArg (some ['0'])).isSome = true by decide)
  obtain ⟨ra, hra⟩ := Option.isSome_iff_exists.mp
    (show (floatArgD (some ['1']) 50).isSome = true by decide)
  obtain ⟨mx, hmx⟩ := Option.isSome_iff_exists.mp
    (show (intArgD (some ['-', '1']) 10).isSome = true by decide)
  unfold search_stationsHandler
  simp [hla, hra, hmx]

/-! ## Claim C10 -/

/-- Claim C10: a search call never mutates the loaded station directory —
the global list after the call is the list before it (so every station
keeps its `id`, `lat`, `lon`, `name` and acquires no `distance` key), and
every returned result is a per-call copy (`station.copy()`) of a directory
station carrying the rounded distance. -/
theorem c10_search_no_directory_mutation (sts : List PyStation)
    (sf : List (List Char)) (q : SearchQuery) (hne : sts ≠ []) :
    (search_stationsHandler sts sf q).1 = sts ∧
    (∀ results, (search_stationsHandler sts sf q).2 = SearchOutcome.ok results →
      ∃ la lo ra mx, floatArg q.lat = some la ∧ floatArg q.lon = some lo ∧
        floatArgD q.radius 50 = some ra ∧ intArgD q.maxr 10 = some mx ∧
        ∀ r ∈ results, ∃ s ∈ sts, stationDist la lo s ≤ (ra : ℝ) ∧
          r = withDist s (stationDist la lo s)) := by
  have hie : sts.isEmpty = false := by
    cases sts with
    | nil => exact absurd rfl hne
    | cons a l => rfl
  have hfst : (search_stationsHandler sts sf q).1 = sts := by
    unfold search_stationsHandler
    cases ha : floatArg q.lat <;> cases hb : floatArg q.lon <;>
      cases hc : floatArgD q.radius 50 <;> cases hd : intArgD q.maxr 10 <;>
        simp [ha, hb, hc, hd, hie]
  refine ⟨hfst, ?_⟩
  intro results hok
  rcases ha : floatArg q.lat with _ | la
  · rw [show (search_stationsHandler sts sf q).2 = SearchOutcome.invalidParameter by
      unfold search_stationsHandler; simp [ha]] at hok
    exact absurd hok (by simp)
  rcases hb : floatArg q.lon with _ | lo
  · rw [show (search_stationsHandler sts sf q).2 = SearchOutcome.invalidParameter by
      unfold search_stationsHandler; simp [ha, hb]] at hok
    exact absurd hok (by simp)
  rcases hc : floatArgD q.radius 50 with _ | ra
  · rw [show (search_stationsHandler sts sf q).2 = SearchOutcome.invalidParameter by
      unfold search_stationsHandler; simp [ha, hb, hc]] at hok
    exact absurd hok (by simp)
  rcases hd : intArgD q.maxr 10 with _ | mx
  · rw [show (search_stationsHandler sts sf q).2 = SearchOutcome.invalidParameter by
      unfold search_stationsHandler; simp [ha, hb, hc, hd]] at hok
    exact absurd hok (by simp)
  have hout : (search_stationsHandler sts sf q).2 =
      SearchOutcome.ok (search_stationsFn sts la lo ra mx) := by
    unfold search_stationsHandler
    simp [ha, hb, hc, hd, hie]
  rw [hout] at hok
  have hres : results = search_stationsFn sts la lo ra mx := by
    cases hok; rfl
  refine ⟨la, lo, ra, mx, rfl, rfl, rfl, rfl, ?_⟩
  intro r hr
  rw [hres] at hr
  have hr1 : r ∈ searchFiltered sts la lo ra := by
    have hmem : r ∈ List.insertionSort (fun a b => keyD a ≤ keyD b)
        (searchFiltered sts la lo ra) :=
      (pySliceTo_sublist mx _).subset hr
    exact (List.mem_insertionSort _).mp hmem
  obtain ⟨s, hs, hdle, rfl⟩ := mem_searchFiltered.mp hr1
  exact ⟨s, hs, hdle, rfl⟩

/-- Witness for C10 on a one-station directory. -/
theorem c10_search_no_directory_mutation_witness :
    ([({ id := ['S'], lat := 0, lon := 0, name := [], distance := none } : PyStation)] ≠ []) ∧
    ((search_stationsHandler
        [{ id := ['S'], lat := 0, lon := 0, name := [], distance := none }] []
        { lat := some ['0'], lon := some ['0'], radius := none, maxr := none }).1 =
      [{ id := ['S'], lat := 0, lon := 0, name := [], distance := none }] ∧
    (∀ results,
      (search_stationsHandler
        [{ id := ['S'], lat := 0, lon := 0, name := [], distance := none }] []
        { lat := some ['0'], lon := some ['0'], radius := none, maxr := none }).2 =
          SearchOutcome.ok results →
      ∃ la lo ra mx, floatArg (some ['0']) = some la ∧ floatArg (some ['0']) = some lo ∧
        floatArgD none 50 = some ra ∧ intArgD none 10 = some mx ∧
        ∀ r ∈ results,
          ∃ s ∈ [({ id := ['S'], lat := 0, lon := 0, name := [], distance := none } : PyStation)],
            stationDist la lo s ≤ (ra : ℝ) ∧ r = withDist s (stationDist la lo s))) :=
  ⟨by decide,
    c10_search_no_directory_mutation
      [{ id := ['S'], lat := 0, lon := 0, name := [], distance := none }] []
      { lat := some ['0'], lon := some ['0'], radius := none, maxr := none }
      (by decide)⟩

/-! ## Claim C4 -/

/-- Claim C4 (amended): both directory loaders read the id from `[0,11)`
trimmed, the latitude from `[12,20)` and the longitude from `[21,30)`;
a line is silently skipped exactly when latitude or longitude fails numeric
parsing, and all other lines are kept in source order (the loader is an
order-preserving `filterMap`).  The `src/test.py` loader reads the name from
`[41,71)` trimmed, as the original claim states; the `src/server.py` loader
instead derives the name from `line[36:]` by trimming and dropping the last
two whitespace-separated tokens. -/
theorem c4_parse_stations_fields_and_skip (lines : List (List Char)) :
    parse_stationsServer lines = lines.filterMap parseStationLineServer ∧
    parse_stationsTest lines = lines.filterMap parseStationLineTest ∧
    (∀ line s, parseStationLineTest line = some s →
      s.id = stripChars (pySlice line 0 11) ∧
      pyParseFloat (stripChars (pySlice line 12 20)) = some s.lat ∧
      pyParseFloat (stripChars (pySlice line 21 30)) = some s.lon ∧
      s.name = stripChars (pySlice line 41 71) ∧ s.distance = none) ∧
    (∀ line s, parseStationLineServer line = some s →
      s.id = stripChars (pySlice line 0 11) ∧
      pyParseFloat (stripChars (pySlice line 12 20)) = some s.lat ∧
      pyParseFloat (stripChars (pySlice line 21 30)) = some s.lon ∧
      s.name = serverNameOf line ∧ s.distance = none) ∧
    (∀ line, parseStationLineServer line = none ↔
      (pyParseFloat (stripChars (pySlice line 12 20)) = none ∨
       pyParseFloat (stripChars (pySlice line 21 30)) = none)) ∧
    (∀ line, parseStationLineTest line = none ↔
      (pyParseFloat (stripChars (pySlice line 12 20)) = none ∨
       pyParseFloat (stripChars (pySlice line 21 30)) = none)) := by
  refine ⟨?_, ?_, ?_, ?_, ?_, ?_⟩
  · have hbody : (fun (acc : List PyStation) line =>
        match parseStationLineServer line with
        | some s => acc ++ [s]
        | none => acc)
        = (fun acc line => acc ++ (parseStationLineServer line).toList) := by
      funext acc line
      cases parseStationLineServer line <;> simp
    unfold parse_stationsServer
    rw [hbody, foldl_toList_filterMap]
    simp
  · have hbody : (fun (acc : List PyStation) line =>
        match parseStationLineTest line with
        | some s => acc ++ [s]
        | none => acc)
        = (fun acc line => acc ++ (parseStationLineTest line).toList) := by
      funext acc line
      cases parseStationLineTest line <;> simp
    unfold parse_stationsTest
    rw [hbody, foldl_toList_filterMap]
    simp
  · intro line s h
    unfold parseStationLineTest at h
    rcases hla : pyParseFloat (stripChars (pySlice line 12 20)) with _ | la <;>
      rcases hlo : pyParseFloat (stripChars (pySlice line 21 30)) with _ | lo <;>
        rw [hla, hlo] at h <;> simp only [] at h
    · exact absurd h (by simp)
    · exact absurd h (by simp)
    · exact absurd h (by simp)
    · obtain rfl := (Option.some_injective _ h)
      exact ⟨rfl, rfl, rfl, rfl, rfl⟩
  · intro line s h
    unfold parseStationLineServer at h
    rcases hla : pyParseFloat (stripChars (pySlice line 12 20)) with _ | la <;>
      rcases hlo : pyParseFloat (stripChars (pySlice line 21 30)) with _ | lo <;>
        rw [hla, hlo] at h <;> simp only [] at h
    · exact absurd h (by simp)
    · exact absurd h (by simp)
    · exact absurd h (by simp)
    · obtain rfl := (Option.some_injective _ h)
      exact ⟨rfl, rfl, rfl, rfl, rfl⟩
  · intro line
    unfold parseStationLineServer
    rcases hla : pyParseFloat (stripChars (pySlice line 12 20)) with _ | la <;>
      rcases hlo : pyParseFloat (stripChars (pySlice line 21 30)) with _ | lo <;>
        simp
  · intro line
    unfold parseStationLineTest
    rcases hla : pyParseFloat (stripChars (pySlice line 12 20)) with _ | la <;>
      rcases hlo : pyParseFloat (stripChars (pySlice line 21 30)) with _ | lo <;>
        simp

/-- Counterexample to C4 as stated: on a station line of the repository's
own test fixtures, the `src/server.py` loader keeps the line (lat/lon parse)
but its name is not the trimmed `[41,71)` field. -/
theorem c4_counterexample :
    (parse_stationsServer
        ["USW00094728  42.3601 -71.0589 123.4 BOSTON LOGAN INTERNATIONAL AIRPORT     MA US".toList]).map
        PyStation.id =
      [stripChars (pySlice
        "USW00094728  42.3601 -71.0589 123.4 BOSTON LOGAN INTERNATIONAL AIRPORT     MA US".toList 0 11)] ∧
    (parse_stationsServer
        ["USW00094728  42.3601 -71.0589 123.4 BOSTON LOGAN INTERNATIONAL AIRPORT     MA US".toList]).map
        PyStation.name ≠
      [stripChars (pySlice
        "USW00094728  42.3601 -71.0589 123.4 BOSTON LOGAN INTERNATIONAL AIRPORT     MA US".toList 41 71)] := by
  refine ⟨by decide, by decide⟩

/-- Once the line is too short for day `d`, it is too short for every later
day: the remaining declarative contributions vanish. -/
theorem filterMap_dayContribution_nil (line year month elem : List Char) :
    ∀ (rem d : ℕ), line.length < 21 + (d - 1) * 8 + 5 →
      (List.range' d rem).filterMap (dayContribution line year month elem) = []
  | 0, _, _ => rfl
  | rem + 1, d, h => by
    have hd : dayContribution line year month elem d = none := by
      unfold dayContribution
      rw [if_neg (by omega)]
    have hnext : line.length < 21 + ((d + 1) - 1) * 8 + 5 := by omega
    rw [show List.range' d (rem + 1) = d :: List.range' (d + 1) rem by
      simp [List.range']]
    rw [List.filterMap_cons, hd,
      filterMap_dayContribution_nil line year month elem rem (d + 1) hnext]

/-- The sequential day loop (with its early `break`) computes exactly the
per-day declarative contributions. -/
theorem processDays_eq (line year month elem : List Char) :
    ∀ (rem d : ℕ),
      processDays line year month elem rem d
        = (List.range' d rem).filterMap (dayContribution line year month elem)
  | 0, _ => rfl
  | rem + 1, d => by
    rw [show List.range' d (rem + 1) = d :: List.range' (d + 1) rem by
      simp [List.range']]
    rw [List.filterMap_cons]
    by_cases hlen : line.length < 21 + (d - 1) * 8 + 5
    · have hd : dayContribution line year month elem d = none := by
        unfold dayContribution
        rw [if_neg (by omega)]
      rw [hd, filterMap_dayContribution_nil line year month elem rem (d + 1) (by omega)]
      simp only [processDays]
      rw [if_pos (by omega)]
    · have hle : 21 + (d - 1) * 8 + 5 ≤ line.length := by omega
      have hrec := processDays_eq line year month elem rem (d + 1)
      simp only [processDays]
      rw [if_neg (by omega), hrec]
      unfold dayContribution
      rw [if_pos hle]
      by_cases hv : stripChars (pySlice line (21 + (d - 1) * 8)
          (21 + (d - 1) * 8 + 5)) = []
      · simp [hv]
      · cases hp : pyParseInt (stripChars (pySlice line (21 + (d - 1) * 8)
            (21 + (d - 1) * 8 + 5))) with
        | none => simp [hv, hp]
        | some v =>
          by_cases hs : v = -9999
          · simp [hv, hp, hs]
          · simp [hv, hp, hs]

/-! ## Claim C3 -/

/-- Claim C3: for every `TMAX`/`TMIN` record line, the parser contributes,
for each day position, a temperature equal to the raw field value divided by
`10.0` exactly when the 5-character value field lies on the line, is
non-blank, parses as an integer, and is not the sentinel `-9999`; a blank,
malformed or sentinel field contributes nothing (the day-by-day
`dayContribution` spells out exactly this condition). -/
theorem c3_day_values_scaled_and_sentinel_excluded (line : List Char)
    (h : stripChars (pySlice line 17 21) = tmaxChars ∨
         stripChars (pySlice line 17 21) = tminChars) :
    processLine line = (List.range' 1 31).filterMap
      (dayContribution line (stripChars (pySlice line 11 15))
        (stripChars (pySlice line 15 17)) (stripChars (pySlice line 17 21))) := by
  simp only [processLine]
  rw [if_pos h]
  exact processDays_eq line _ _ _ 31 1

/-- Witness for C3 on a concrete `TMAX` line: day 1 carries value `250`,
day 2 the sentinel `-9999`, day 3 a blank field, and the line ends before
day 4. -/
theorem c3_day_values_scaled_and_sentinel_excluded_witness :
    (stripChars (pySlice
        ("USW000947282022 1TMAX  250   -9999           ".toList) 17 21) = tmaxChars ∨
     stripChars (pySlice
        ("USW000947282022 1TMAX  250   -9999           ".toList) 17 21) = tminChars) ∧
    processLine ("USW000947282022 1TMAX  250   -9999           ".toList)
      = (List.range' 1 31).filterMap
        (dayContribution ("USW000947282022 1TMAX  250   -9999           ".toList)
          (stripChars (pySlice ("USW000947282022 1TMAX  250   -9999           ".toList) 11 15))
          (stripChars (pySlice ("USW000947282022 1TMAX  250   -9999           ".toList) 15 17))
          (stripChars (pySlice ("USW000947282022 1TMAX  250   -9999           ".toList) 17 21))) :=
  ⟨Or.inl (by decide),
    c3_day_values_scaled_and_sentinel_excluded _ (Or.inl (by decide))⟩

/-- `process_weather_data_for_station` returns exactly one of two shapes:
non-empty data with no error, or no data with a non-empty error message. -/
theorem process_cases (sid : List Char) (file? : Option (List (List Char))) :
    (∃ ts, process_weather_data_for_station sid file? = (some ts, none) ∧ ts ≠ []) ∨
    (∃ m, process_weather_data_for_station sid file? = (none, some m) ∧ m ≠ []) := by
  cases file? with
  | none =>
    refine Or.inr ⟨noDataFileMsg sid, rfl, ?_⟩
    unfold noDataFileMsg
    intro h
    rw [List.append_eq_nil, List.append_eq_nil] at h
    exact absurd h.1.1 (by decide)
  | some lines =>
    have hred : process_weather_data_for_station sid (some lines)
        = (if (lines.foldl (fun acc line => acc ++ processLine line) []).isEmpty
           then (none, some (noValidMsg sid))
           else (some (lines.foldl (fun acc line => acc ++ processLine line) []), none)) :=
      rfl
    cases h : (lines.foldl (fun acc line => acc ++ processLine line) []).isEmpty with
    | true =>
      refine Or.inr ⟨noValidMsg sid, by rw [hred, if_pos h], ?_⟩
      unfold noValidMsg
      intro hx
      rw [List.append_eq_nil, List.append_eq_nil] at hx
      exact absurd hx.1.1 (by decide)
    | false =>
      refine Or.inl ⟨lines.foldl (fun acc line => acc ++ processLine line) [],
        by rw [hred, if_neg (by simp [h])], ?_⟩
      intro hx
      rw [hx] at h
      exact absurd h (by decide)

/-! ## Claim C9 -/

/-- Claim C9: processing a station's weather record source returns exactly
one of two shapes — a non-empty list of temperature observations with no
error, or no data with a non-empty error message; in particular a record
source with no valid `TMAX`/`TMIN` values yields an error, never an empty
list. -/
theorem c9_process_two_shapes (sid : List Char)
    (file? : Option (List (List Char))) :
    ((∃ ts, process_weather_data_for_station sid file? = (some ts, none) ∧ ts ≠ []) ∨
     (∃ m, process_weather_data_for_station sid file? = (none, some m) ∧ m ≠ [])) ∧
    (∀ lines, file? = some lines →
      lines.foldl (fun acc line => acc ++ processLine line) [] = [] →
      ∃ m, process_weather_data_for_station sid file? = (none, some m) ∧ m ≠ []) := by
  refine ⟨process_cases sid file?, ?_⟩
  intro lines hf hempty
  rcases process_cases sid file? with ⟨ts, hts, htne⟩ | ⟨m, hm, hmn⟩
  · exfalso
    subst hf
    have hred : process_weather_data_for_station sid (some lines)
        = (if (lines.foldl (fun acc line => acc ++ processLine line) []).isEmpty
           then (none, some (noValidMsg sid))
           else (some (lines.foldl (fun acc line => acc ++ processLine line) []), none)) :=
      rfl
    rw [hred, hempty] at hts
    simp at hts
  · exact ⟨m, hm, hmn⟩

/-- Witness for C9 at a concrete station id and a missing record source. -/
theorem c9_process_two_shapes_witness :
    ((∃ ts, process_weather_data_for_station ['S'] none = (some ts, none) ∧ ts ≠ []) ∨
     (∃ m, process_weather_data_for_station ['S'] none = (none, some m) ∧ m ≠ [])) ∧
    (∀ lines, (none : Option (List (List Char))) = some lines →
      lines.foldl (fun acc line => acc ++ processLine line) [] = [] →
      ∃ m, process_weather_data_for_station ['S'] none = (none, some m) ∧ m ≠ []) :=
  c9_process_two_shapes ['S'] none

/-- Adding to the yearly sums leaves the season buckets untouched. -/
theorem YearAcc.addYearly_seasons (a : YearAcc) (e : Elem) (vs : List (Option ℚ)) :
    (a.addYearly e vs).seasons = a.seasons := by
  cases e <;> rfl

/-! ## Claim C2 -/

/-- Claim C2 (spec-modelled): a December record of year `Y` never touches
the Winter bucket of calendar year `Y`; when it contributes seasonally at
all (calendar year in range and season-year `Y + 1` not past `end_year`),
its observations are added to the Winter bucket of season-year `Y + 1`. -/
theorem c2_december_attributes_to_next_winter (accs : ℤ → YearAcc)
    (r : DailyRecord) (startY endY : ℤ) (h12 : r.month = 12) :
    ((accumulate accs r startY endY r.year).seasons Season.winter
      = (accs r.year).seasons Season.winter) ∧
    (startY ≤ r.year → r.year + 1 ≤ endY →
      (accumulate accs r startY endY (r.year + 1)).seasons Season.winter
        = ((accs (r.year + 1)).seasons Season.winter).add r.element r.values) := by
  have hss : season_of r.month = Season.winter := by
    rw [h12]; rfl
  have hsy : r.year + (if r.month = 12 then (1 : ℤ) else 0) = r.year + 1 := by
    rw [h12]; norm_num
  have hred : accumulate accs r startY endY
      = if r.year < startY ∨ endY < r.year then accs
        else
          (if endY < r.year + 1 then
            updAt accs r.year (fun ya => ya.addYearly r.element r.values)
          else
            updAt (updAt accs r.year (fun ya => ya.addYearly r.element r.values))
              (r.year + 1)
              (fun ya => { ya with seasons := fun s =>
                (if s = Season.winter then
                  (ya.seasons Season.winter).add r.element r.values
                else ya.seasons s) })) := by
    simp only [accumulate, hss, hsy]
    simp
  constructor
  · rw [hred]
    split_ifs with hr hskip
    · rfl
    · unfold updAt
      rw [if_pos rfl, YearAcc.addYearly_seasons]
    · unfold updAt
      rw [if_neg (by omega), if_pos rfl, YearAcc.addYearly_seasons]
  · intro h1 h2
    rw [hred, if_neg (by omega), if_neg (by omega)]
    unfold updAt
    rw [if_pos rfl, if_neg (by omega)]
    simp

/-- Witness for C2: a December 2020 `TMAX` record aggregated over
`[2020, 2021]`. -/
theorem c2_december_attributes_to_next_winter_witness :
    (({ station_id := [], year := 2020, month := 12, element := Elem.TMAX,
        values := [some 1, none] } : DailyRecord).month = 12) ∧
    (((accumulate (fun _ => {})
        { station_id := [], year := 2020, month := 12, element := Elem.TMAX,
          values := [some 1, none] } 2020 2021 2020).seasons Season.winter
      = ((fun _ => ({} : YearAcc)) 2020).seasons Season.winter) ∧
    ((2020 : ℤ) ≤ 2020 → (2020 : ℤ) + 1 ≤ 2021 →
      (accumulate (fun _ => {})
        { station_id := [], year := 2020, month := 12, element := Elem.TMAX,
          values := [some 1, none] } 2020 2021 (2020 + 1)).seasons Season.winter
        = (((fun _ => ({} : YearAcc)) (2020 + 1)).seasons Season.winter).add
            Elem.TMAX [some 1, none])) :=
  ⟨by decide,
    c2_december_attributes_to_next_winter (fun _ => {})
      { station_id := [], year := 2020, month := 12, element := Elem.TMAX,
        values := [some 1, none] } 2020 2021 (by decide)⟩

/-- Membership in a successful year filter: exactly the entries of the input
whose leading four date characters parse to a year within the bounds. -/
theorem tryFilterYears_mem (y1 y2 : ℤ) :
    ∀ (temps out : List TempEntry), tryFilterYears y1 y2 temps = some out →
      ∀ e, e ∈ out ↔
        (e ∈ temps ∧ ∃ y, pyParseInt (e.date.take 4) = some y ∧ y1 ≤ y ∧ y ≤ y2)
  | [], out, h, e => by
    simp only [tryFilterYears] at h
    obtain rfl := (Option.some_injective _ h)
    simp
  | t :: ts, out, h, e => by
    simp only [tryFilterYears] at h
    rcases hp : pyParseInt (t.date.take 4) with _ | y
    · rw [hp] at h; exact absurd h (by simp)
    · rw [hp] at h
      rcases hr : tryFilterYears y1 y2 ts with _ | r
      · rw [hr] at h; exact absurd h (by simp)
      · rw [hr] at h
        obtain rfl := (Option.some_injective _ h)
        have ih := tryFilterYears_mem y1 y2 ts r hr e
        by_cases hin : y1 ≤ y ∧ y ≤ y2
        · rw [if_pos hin]
          constructor
          · intro hmem
            rcases List.mem_cons.mp hmem with rfl | hmm
            · exact ⟨List.mem_cons_self _ _, y, hp, hin⟩
            · obtain ⟨h1, h2⟩ := ih.mp hmm
              exact ⟨List.mem_cons_of_mem _ h1, h2⟩
          · rintro ⟨hmem, hy⟩
            rcases List.mem_cons.mp hmem with rfl | hmm
            · exact List.mem_cons_self _ _
            · exact List.mem_cons_of_mem _ (ih.mpr ⟨hmm, hy⟩)
        · rw [if_neg hin]
          constructor
          · intro hmem
            obtain ⟨h1, h2⟩ := ih.mp hmem
            exact ⟨List.mem_cons_of_mem _ h1, h2⟩
          · rintro ⟨hmem, y', hy', hrange⟩
            rcases List.mem_cons.mp hmem with rfl | hmm
            · rw [hp] at hy'
              obtain rfl := (Option.some_injective _ hy')
              exact absurd hrange hin
            · exact ih.mpr ⟨hmm, y', hy', hrange⟩

/-- Reduction of the `/get_station_data` handler once the directory is
loaded, the station id is provided and non-empty, and both years parse. -/
theorem get_station_dataHandler_red (sts : List PyStation)
    (sf : List (List Char)) (file? : Option (List (List Char))) (q : GetQuery)
    (sid : List Char) (y1 y2 : ℤ)
    (hne : sts ≠ []) (hsid : q.station_id = some sid) (hsne : sid ≠ [])
    (hy1 : intArgD q.start_year 2010 = some y1)
    (hy2 : intArgD q.end_year 2020 = some y2) :
    get_station_dataHandler sts sf file? q =
      (sts,
       match sts.find? (fun s => s.id == sid) with
       | none => GetOutcome.errStationNotFound
       | some st =>
         match process_weather_data_for_station sid file? with
         | (_, some m) => GetOutcome.errProcess m
         | (some temps, none) =>
           match tryFilterYears y1 y2 temps with
           | none => GetOutcome.crash
           | some filtered =>
             if filtered.isEmpty then GetOutcome.errNoData y1 y2
             else GetOutcome.ok { id := sid, name := st.name, lat := st.lat,
                                  lon := st.lon, temperatures := filtered }
         | (none, none) => GetOutcome.crash) := by
  have hie : sts.isEmpty = false := by
    cases sts with
    | nil => exact absurd rfl hne
    | cons a l => rfl
  have hse : sid.isEmpty = false := by
    cases sid with
    | nil => exact absurd rfl hsne
    | cons a l => rfl
  simp only [get_station_dataHandler, hsid, hy1, hy2, hie, hse]
  simp only [Bool.false_eq_true, if_false]
  rcases hfind : sts.find? (fun s => s.id == sid) with _ | st
  · simp only [hfind]
  · simp only [hfind]
    rcases hproc : process_weather_data_for_station sid file? with ⟨tt, ee⟩
    rcases tt with _ | temps <;> rcases ee with _ | m <;> simp only [hproc]
    rcases htf : tryFilterYears y1 y2 temps with _ | filtered <;> simp only [htf]
    split <;> rfl

/-! ## Claim C7 -/

/-- Claim C7: in a successful `get_station_data` response, an observation
appears exactly when it is one of the station's parsed observations and its
calendar year (the integer value of the first four date characters) lies
within `[start_year, end_year]` inclusive — so out-of-range records
contribute nothing and boundary years are included. -/
theorem c7_year_range_filter_inclusive (sts : List PyStation)
    (sf : List (List Char)) (file? : Option (List (List Char))) (q : GetQuery)
    (sid : List Char) (y1 y2 : ℤ)
    (hne : sts ≠ []) (hsid : q.station_id = some sid) (hsne : sid ≠ [])
    (hy1 : intArgD q.start_year 2010 = some y1)
    (hy2 : intArgD q.end_year 2020 = some y2) :
    ∀ temps, process_weather_data_for_station sid file? = (some temps, none) →
      ∀ resp, (get_station_dataHandler sts sf file? q).2 = GetOutcome.ok resp →
        ∀ e, e ∈ resp.temperatures ↔
          (e ∈ temps ∧ ∃ y, pyParseInt (e.date.take 4) = some y ∧ y1 ≤ y ∧ y ≤ y2) := by
  intro temps htemps resp hok
  rw [get_station_dataHandler_red sts sf file? q sid y1 y2 hne hsid hsne hy1 hy2] at hok
  rcases hfind : sts.find? (fun s => s.id == sid) with _ | st
  · rw [hfind] at hok
    exact absurd hok (by simp)
  · rw [hfind] at hok
    simp only [htemps] at hok
    rcases htf : tryFilterYears y1 y2 temps with _ | filtered
    · rw [htf] at hok
      exact absurd hok (by simp)
    · rw [htf] at hok
      cases hemp : filtered.isEmpty with
      | true => simp [hemp] at hok
      | false =>
        simp only [hemp, Bool.false_eq_true, if_false, GetOutcome.ok.injEq] at hok
        subst hok
        exact tryFilterYears_mem y1 y2 temps filtered htf

/-- Witness for C7 on a one-station directory with default years. -/
theorem c7_year_range_filter_inclusive_witness :
    ([({ id := ['S'], lat := 0, lon := 0, name := [], distance := none } : PyStation)] ≠ [] ∧
     ({ station_id := some ['S'], start_year := none, end_year := none } : GetQuery).station_id
        = some ['S'] ∧
     (['S'] : List Char) ≠ [] ∧
     intArgD none 2010 = some 2010 ∧ intArgD none 2020 = some 2020) ∧
    (∀ temps, process_weather_data_for_station ['S']
        (some ["USW000947282022 1TMAX  250   -9999           ".toList])
          = (some temps, none) →
      ∀ resp, (get_station_dataHandler
          [{ id := ['S'], lat := 0, lon := 0, name := [], distance := none }] []
          (some ["USW000947282022 1TMAX  250   -9999           ".toList])
          { station_id := some ['S'], start_year := none, end_year := none }).2
            = GetOutcome.ok resp →
        ∀ e, e ∈ resp.temperatures ↔
          (e ∈ temps ∧ ∃ y, pyParseInt (e.date.take 4) = some y ∧
            2010 ≤ y ∧ y ≤ 2020)) :=
  ⟨⟨by decide, rfl, by decide, rfl, rfl⟩,
    c7_year_range_filter_inclusive
      [{ id := ['S'], lat := 0, lon := 0, name := [], distance := none }] []
      (some ["USW000947282022 1TMAX  250   -9999           ".toList])
      { station_id := some ['S'], start_year := none, end_year := none }
      ['S'] 2010 2020 (by decide) rfl (by decide) rfl rfl⟩

/-! ## Claim C6 -/

/-- Claim C6 (amended): with the directory loaded, a non-empty station id
and parseable years, `get_station_data` fails with `StationNotFound` exactly
when the id is absent from the directory; it fails with `NoDataForRange`
exactly when the station is present, processing its record source succeeds
(the source exists and holds at least one valid observation), and no
observation's year falls within `[start_year, end_year]`; and it succeeds
exactly when the station is present, processing succeeds, and some
observation falls within the range.  (When the record source is missing or
holds no valid observation the code returns the distinct processing error,
not `NoDataForRange` — see the counterexample.) -/
theorem c6_get_station_data_error_conditions (sts : List PyStation)
    (sf : List (List Char)) (file? : Option (List (List Char))) (q : GetQuery)
    (sid : List Char) (y1 y2 : ℤ)
    (hne : sts ≠ []) (hsid : q.station_id = some sid) (hsne : sid ≠ [])
    (hy1 : intArgD q.start_year 2010 = some y1)
    (hy2 : intArgD q.end_year 2020 = some y2) :
    ((get_station_dataHandler sts sf file? q).2 = GetOutcome.errStationNotFound ↔
      sts.find? (fun s => s.id == sid) = none) ∧
    ((get_station_dataHandler sts sf file? q).2.isNoData = true ↔
      ((∃ st, sts.find? (fun s => s.id == sid) = some st) ∧
       (∃ ts, process_weather_data_for_station sid file? = (some ts, none) ∧
         tryFilterYears y1 y2 ts = some []))) ∧
    ((get_station_dataHandler sts sf file? q).2.isOk = true ↔
      ((∃ st, sts.find? (fun s => s.id == sid) = some st) ∧
       (∃ ts e rest, process_weather_data_for_station sid file? = (some ts, none) ∧
         tryFilterYears y1 y2 ts = some (e :: rest)))) := by
  rw [get_station_dataHandler_red sts sf file? q sid y1 y2 hne hsid hsne hy1 hy2]
  rcases hfind : sts.find? (fun s => s.id == sid) with _ | st
  · simp [hfind, GetOutcome.isNoData, GetOutcome.isOk]
  · rcases process_cases sid file? with ⟨ts, hts, htsne⟩ | ⟨m, hm, hmne⟩
    · rcases htf : tryFilterYears y1 y2 ts with _ | filtered
      · simp [hfind, hts, htf, GetOutcome.isNoData, GetOutcome.isOk]
      · cases filtered with
        | nil =>
          simp [hfind, hts, htf, GetOutcome.isNoData, GetOutcome.isOk]
        | cons e rest =>
          simp [hfind, hts, htf, GetOutcome.isNoData, GetOutcome.isOk]
    · simp [hfind, hm, GetOutcome.isNoData, GetOutcome.isOk]

/-- Witness for C6 on a one-station directory with a missing record source. -/
theorem c6_get_station_data_error_conditions_witness :
    ([({ id := ['S'], lat := 0, lon := 0, name := [], distance := none } : PyStation)] ≠ [] ∧
     ({ station_id := some ['S'], start_year := none, end_year := none } : GetQuery).station_id
        = some ['S'] ∧
     (['S'] : List Char) ≠ [] ∧
     intArgD none 2010 = some 2010 ∧ intArgD none 2020 = some 2020) ∧
    (((get_station_dataHandler
        [{ id := ['S'], lat := 0, lon := 0, name := [], distance := none }] []
        none { station_id := some ['S'], start_year := none, end_year := none }).2
          = GetOutcome.errStationNotFound ↔
      ([({ id := ['S'], lat := 0, lon := 0, name := [], distance := none } : PyStation)]).find?
        (fun s => s.id == ['S']) = none) ∧
    ((get_station_dataHandler
        [{ id := ['S'], lat := 0, lon := 0, name := [], distance := none }] []
        none { station_id := some ['S'], start_year := none, end_year := none }).2.isNoData = true ↔
      ((∃ st, ([({ id := ['S'], lat := 0, lon := 0, name := [], distance := none } : PyStation)]).find?
          (fun s => s.id == ['S']) = some st) ∧
       (∃ ts, process_weather_data_for_station ['S'] none = (some ts, none) ∧
         tryFilterYears 2010 2020 ts = some []))) ∧
    ((get_station_dataHandler
        [{ id := ['S'], lat := 0, lon := 0, name := [], distance := none }] []
        none { station_id := some ['S'], start_year := none, end_year := none }).2.isOk = true ↔
      ((∃ st, ([({ id := ['S'], lat := 0, lon := 0, name := [], distance := none } : PyStation)]).find?
          (fun s => s.id == ['S']) = some st) ∧
       (∃ ts e rest, process_weather_data_for_station ['S'] none = (some ts, none) ∧
         tryFilterYears 2010 2020 ts = some (e :: rest))))) :=
  ⟨⟨by decide, rfl, by decide, rfl, rfl⟩,
    c6_get_station_data_error_conditions
      [{ id := ['S'], lat := 0, lon := 0, name := [], distance := none }] []
      none { station_id := some ['S'], start_year := none, end_year := none }
      ['S'] 2010 2020 (by decide) rfl (by decide) rfl rfl⟩

/-- Counterexample to C6 as stated: the station is present, a record source
exists (an existing but empty file), and zero record lines fall within the
default range `[2010, 2020]`; the claim then demands `NoDataForRange`, but
the code answers with the distinct no-valid-data processing error. -/
theorem c6_counterexample :
    ((get_station_dataHandler
        [{ id := ['S'], lat := 0, lon := 0, name := [], distance := none }] []
        (some []) { station_id := some ['S'], start_year := none, end_year := none }).2
      = GetOutcome.errProcess (noValidMsg ['S'])) ∧
    ¬ (((get_station_dataHandler
        [{ id := ['S'], lat := 0, lon := 0, name := [], distance := none }] []
        (some []) { station_id := some ['S'], start_year := none, end_year := none }).2.isNoData
          = true) ↔
       ((([({ id := ['S'], lat := 0, lon := 0, name := [], distance := none } : PyStation)]).find?
          (fun s => s.id == ['S'])).isSome = true ∧
        (some ([] : List (List Char))).isSome = true ∧
        ([] : List (List Char)).length = 0)) := by
  exact ⟨by decide, by decide⟩

/-- Witness for C4 on a concrete one-line directory. -/
theorem c4_parse_stations_fields_and_skip_witness :
    parse_stationsServer
        ["USW00094728  42.3601 -71.0589 123.4 BOSTON LOGAN INTERNATIONAL AIRPORT     MA US".toList]
      = ["USW00094728  42.3601 -71.0589 123.4 BOSTON LOGAN INTERNATIONAL AIRPORT     MA US".toList].filterMap
          parseStationLineServer ∧
    parse_stationsTest
        ["USW00094728  42.3601 -71.0589 123.4 BOSTON LOGAN INTERNATIONAL AIRPORT     MA US".toList]
      = ["USW00094728  42.3601 -71.0589 123.4 BOSTON LOGAN INTERNATIONAL AIRPORT     MA US".toList].filterMap
          parseStationLineTest ∧
    (∀ line s, parseStationLineTest line = some s →
      s.id = stripChars (pySlice line 0 11) ∧
      pyParseFloat (stripChars (pySlice line 12 20)) = some s.lat ∧
      pyParseFloat (stripChars (pySlice line 21 30)) = some s.lon ∧
      s.name = stripChars (pySlice line 41 71) ∧ s.distance = none) ∧
    (∀ line s, parseStationLineServer line = some s →
      s.id = stripChars (pySlice line 0 11) ∧
      pyParseFloat (stripChars (pySlice line 12 20)) = some s.lat ∧
      pyParseFloat (stripChars (pySlice line 21 30)) = some s.lon ∧
      s.name = serverNameOf line ∧ s.distance = none) ∧
    (∀ line, parseStationLineServer line = none ↔
      (pyParseFloat (stripChars (pySlice line 12 20)) = none ∨
       pyParseFloat (stripChars (pySlice line 21 30)) = none)) ∧
    (∀ line, parseStationLineTest line = none ↔
      (pyParseFloat (stripChars (pySlice line 12 20)) = none ∨
       pyParseFloat (stripChars (pySlice line 21 30)) = none)) :=
  c4_parse_stations_fields_and_skip
    ["USW00094728  42.3601 -71.0589 123.4 BOSTON LOGAN INTERNATIONAL AIRPORT     MA US".toList]
